import Mathlib

/-!
Shallow embedding of the offline training pipeline in save_model.py and of
the two cached loaders in app.py, together with proofs of the behavioural
claims about them.

The pipeline in save_model.py is a straight-line script: read the penguin
CSV, drop rows with missing values, select the target column and the six
feature columns, one-hot encode the features (pd.get_dummies), factorize the
target (pd.factorize), split train/test with train_size=0.8
(sklearn train_test_split), fit a random-forest classifier, score it, and
pickle the model and the label lookup array to two files in sequence.

The random-forest itself is treated as an opaque external capability
(a parameter of the embedding), as are the random shuffle inside
train_test_split and the outcome of each file write.
-/

deriving instance DecidableEq for Except

namespace PenguinPipeline

/-- pd.factorize, second component: the list of distinct target values in
order of first appearance (the variable output_uniques in save_model.py). -/
def uniques : List String → List String
  | [] => []
  | x :: xs => x :: (uniques xs).filter (fun y => y ≠ x)

/-- pd.factorize, first component: the integer code of each entry, namely the
position of its value in the first-appearance list of distinct values
(the variable output_codes in save_model.py). -/
def codes (l : List String) : List Nat :=
  l.map (fun x => (uniques l).indexOf x)

/-- One row of penguins-chinese.csv. Each field is optional because the raw
CSV may have missing values; dropna keeps only fully populated rows.
The seven columns are: species (企鹅的种类, the target), island
(企鹅栖息的岛屿), bill length (喙的长度), bill depth (喙的深度), flipper
length (翅膀的长度), body mass (身体质量) and sex (性别). -/
structure Record where
  species : Option String
  island : Option String
  billLen : Option ℚ
  billDepth : Option ℚ
  flipperLen : Option ℚ
  bodyMass : Option ℚ
  sex : Option String
deriving DecidableEq

/-- A row survives penguin_df.dropna exactly when every column is present. -/
def isComplete (r : Record) : Bool :=
  r.species.isSome && r.island.isSome && r.billLen.isSome && r.billDepth.isSome &&
    r.flipperLen.isSome && r.bodyMass.isSome && r.sex.isSome

/-- penguin_df after dropna(inplace=True): the rows with no missing value,
in their original order. -/
def survivors (df : List Record) : List Record := df.filter isComplete

/-- Insert a string into a sorted list of strings, keeping it sorted. -/
def insertSorted (s : String) : List String → List String
  | [] => [s]
  | x :: xs => if s ≤ x then s :: x :: xs else x :: insertSorted s xs

/-- Sort a list of strings (insertion sort). -/
def sortStrings (l : List String) : List String := l.foldr insertSorted []

/-- The distinct values of a column in sorted order: pd.get_dummies builds
its dummy columns from the sorted categories of the column. -/
def sortedUniques (l : List String) : List String := sortStrings (uniques l)

/-- The 0/1 indicator column for value v over a categorical column. -/
def indicator (v : String) (vals : List String) : List ℚ :=
  vals.map (fun x => if x = v then 1 else 0)

/-- Column type of the small table model: a numeric column or a categorical
(string) column. -/
inductive Col where
  | num (vals : List ℚ)
  | cat (vals : List String)
deriving DecidableEq

/-- Whether a column is numeric. -/
def Col.isNum : Col → Bool
  | .num _ => true
  | .cat _ => false

/-- A table is an ordered list of named columns. -/
abbrev Table := List (String × Col)

/-- The dummy columns pd.get_dummies produces for one categorical column:
one 0/1 indicator column per distinct observed value, named
original_name_value, in sorted value order. -/
def dummyColumns (name : String) (vals : List String) : List (String × Col) :=
  (sortedUniques vals).map (fun v => (name ++ "_" ++ v, Col.num (indicator v vals)))

/-- pd.get_dummies on a table: numeric columns pass through unchanged (and
come first, in their original order), then every categorical column is
replaced by its dummy columns. -/
def get_dummies (t : Table) : Table :=
  t.filter (fun c => c.2.isNum) ++
    (t.filter (fun c => !c.2.isNum)).flatMap (fun c =>
      match c.2 with
      | .cat vs => dummyColumns c.1 vs
      | .num _ => [])

/-- The distinct islands among the surviving rows, sorted: the categories of
the one-hot expansion of 企鹅栖息的岛屿. -/
def islandCats (df : List Record) : List String :=
  sortedUniques ((survivors df).map (fun r => r.island.getD ""))

/-- The distinct sexes among the surviving rows, sorted: the categories of
the one-hot expansion of 性别. -/
def sexCats (df : List Record) : List String :=
  sortedUniques ((survivors df).map (fun r => r.sex.getD ""))

/-- The encoded feature row of one surviving record: the four numeric columns
pass through, then the island indicator block, then the sex indicator block
(the column layout pd.get_dummies gives the six selected feature columns). -/
def encodeRow (iCats sCats : List String) (r : Record) : List ℚ :=
  [r.billLen.getD 0, r.billDepth.getD 0, r.flipperLen.getD 0, r.bodyMass.getD 0] ++
    iCats.map (fun v => if r.island.getD "" = v then 1 else 0) ++
    sCats.map (fun v => if r.sex.getD "" = v then 1 else 0)

/-- The encoded feature matrix (the variable features after pd.get_dummies):
one encoded row per surviving record, in order. -/
def featuresMatrix (df : List Record) : List (List ℚ) :=
  (survivors df).map (encodeRow (islandCats df) (sexCats df))

/-- The target column (the variable output): the species of each surviving
record, in order. -/
def outputLabels (df : List Record) : List String :=
  (survivors df).map (fun r => r.species.getD "")

/-- The integer label codes pd.factorize assigns to the target column
(the variable output_codes). -/
def labelCodes (df : List Record) : List Nat :=
  codes (outputLabels df)

/-- The label lookup array pd.factorize returns alongside the codes
(the variable output_uniques), later pickled to output_uniques.pkl. -/
def outputUniques (df : List Record) : List String :=
  uniques (outputLabels df)

/-- The error taxonomy of the spec: DataError for malformed/empty input or a
shape mismatch, ConfigError for an invalid split fraction, IOError for a
failed write. sklearn raises ValueError in the first two cases; the spec
names the classes, so the taxonomy is modelled from the spec. -/
inductive Err where
  | dataError
  | configError
  | ioError
deriving DecidableEq

/-- The train-set size sklearn computes for a fractional train_size p:
the floor of p times the number of samples. -/
def nTrainOf (n : Nat) (p : ℚ) : Nat := (⌊p * (n : ℚ)⌋).toNat

/-- The test-set size sklearn computes when only train_size is given: the
ceiling of the complementary fraction times the number of samples. -/
def nTestOf (n : Nat) (p : ℚ) : Nat := (⌈(1 - p) * (n : ℚ)⌉).toNat

/-- Size validation of sklearn train_test_split for a fractional train_size:
reject a fraction outside the open interval (0,1); otherwise the train size
is the floor of p times n and the test size is the ceiling of the
complement; reject when the sizes exceed n or the train set would be empty. -/
def splitSizes (n : Nat) (p : ℚ) : Except Err (Nat × Nat) :=
  if p ≤ 0 ∨ 1 ≤ p then .error .configError
  else if n < nTrainOf n p + nTestOf n p then .error .dataError
  else if nTrainOf n p = 0 then .error .dataError
  else .ok (nTrainOf n p, nTestOf n p)

/-- sklearn train_test_split(features, output_codes, train_size=p): check the
two arrays have the same length, validate the sizes, shuffle the rows (the
random permutation is a parameter of the embedding), and cut the shuffled
rows into the first nTrain (train) and the rest (test). Returns
(x_train, x_test, y_train, y_test). -/
def train_test_split (X : List (List ℚ)) (Y : List Nat) (p : ℚ)
    (shuffle : List (List ℚ × Nat) → List (List ℚ × Nat)) :
    Except Err (List (List ℚ) × List (List ℚ) × List Nat × List Nat) :=
  if X.length ≠ Y.length then .error .dataError
  else
    match splitSizes X.length p with
    | .error e => .error e
    | .ok (nTrain, _) =>
      let pairs := shuffle (X.zip Y)
      .ok ((pairs.take nTrain).map Prod.fst, (pairs.drop nTrain).map Prod.fst,
        (pairs.take nTrain).map Prod.snd, (pairs.drop nTrain).map Prod.snd)

/-- accuracy_score(y_test, y_pred): the fraction of test predictions equal to
the true label. -/
def accuracy (yTrue yPred : List Nat) : ℚ :=
  if yTrue.length = 0 then 0
  else (((yTrue.zip yPred).countP (fun q => q.1 == q.2) : ℚ) / (yTrue.length : ℚ))

/-- State of one output file on disk. -/
inductive FileState (α : Type) where
  | absent
  | corrupt
  | written (content : α)
deriving DecidableEq

/-- The two artifacts the script writes: rfc_model.pkl and
output_uniques.pkl. -/
structure FS (μ : Type) where
  rfcModelFile : FileState μ
  outputUniquesFile : FileState (List String)
deriving DecidableEq

/-- Outcome of one attempted file write (with open(path, wb) as f:
pickle.dump(obj, f)). If open fails the file is untouched; if open succeeds
but the dump fails, open has already truncated the file, so a corrupt
artifact is left behind; on success the content is fully written. -/
inductive WriteOutcome where
  | success
  | openFail
  | dumpFail
deriving DecidableEq

/-- Effect of one write attempt on one file, with a flag telling whether the
write succeeded. -/
def writeFile {α : Type} (st : FileState α) (w : WriteOutcome) (content : α) :
    FileState α × Bool :=
  match w with
  | .success => (.written content, true)
  | .openFail => (st, false)
  | .dumpFail => (.corrupt, false)

/-- The whole script save_model.py, parametric in the split fraction p (the
script fixes p = 0.8), the shuffle used by train_test_split, the opaque
classifier (fit and predictFn model RandomForestClassifier fit/predict), the
outcome of each of the two writes, and the initial filesystem. Returns the
final filesystem and either the accuracy score (success: the script prints
its success line) or the error that aborted the run. -/
def runPipeline {μ : Type} (df : List Record) (p : ℚ)
    (shuffle : List (List ℚ × Nat) → List (List ℚ × Nat))
    (fit : List (List ℚ) → List Nat → μ)
    (predictFn : μ → List (List ℚ) → List Nat)
    (w1 w2 : WriteOutcome) (fs : FS μ) : FS μ × Except Err ℚ :=
  match train_test_split (featuresMatrix df) (labelCodes df) p shuffle with
  | .error e => (fs, .error e)
  | .ok (xTrain, xTest, yTrain, yTest) =>
    let rfc := fit xTrain yTrain
    let yPred := predictFn rfc xTest
    let score := accuracy yTest yPred
    let r1 := writeFile fs.rfcModelFile w1 rfc
    if r1.2 then
      let r2 := writeFile fs.outputUniquesFile w2 (outputUniques df)
      if r2.2 then
        ({ rfcModelFile := r1.1, outputUniquesFile := r2.1 }, .ok score)
      else
        ({ rfcModelFile := r1.1, outputUniquesFile := r2.1 }, .error .ioError)
    else
      ({ rfcModelFile := r1.1, outputUniquesFile := fs.outputUniquesFile }, .error .ioError)

/-- Number of rows stored in a column. -/
def Col.length : Col → Nat
  | .num vs => vs.length
  | .cat vs => vs.length

/-- A sample complete record of species A, used for concrete runs. -/
def sampleRecA : Record :=
  ⟨some "A", some "I1", some 1, some 2, some 3, some 4, some "M"⟩

/-- A sample complete record of species B, used for concrete runs. -/
def sampleRecB : Record :=
  ⟨some "B", some "I2", some 1, some 2, some 3, some 4, some "F"⟩

/-- A sample record with a missing value, dropped by dropna. -/
def sampleRecMissing : Record :=
  ⟨none, some "I1", some 1, some 2, some 3, some 4, some "M"⟩

/-- A sample five-row dataset with two species, used for concrete runs. -/
def sampleDf : List Record := [sampleRecA, sampleRecB, sampleRecA, sampleRecB, sampleRecA]

/-- A concrete pipeline run on the sample dataset in which the first write
(rfc_model.pkl) succeeds and the second write (output_uniques.pkl) fails
when its file is opened: the model Unit stands for the opaque fitted
classifier and the predictor returns code 0 everywhere. -/
def interruptedRun : FS Unit × Except Err ℚ :=
  runPipeline sampleDf (4 / 5) id (fun _ _ => ()) (fun _ xs => xs.map (fun _ => 0))
    .success .openFail ⟨.absent, .absent⟩

end PenguinPipeline

namespace Dashboard

open PenguinPipeline

/-- Outcome of one joblib.load / pd.read_csv call in app.py: the two except
branches of the loaders distinguish FileNotFoundError from any other
exception. -/
inductive LoadFailure where
  | fileNotFound
  | otherError
deriving DecidableEq

/-- load_model in app.py: try to load the model and the two label encoders in
sequence; if any load raises (file missing or any other exception) the
function swallows the exception, shows a message, and returns the triple
(None, None, None); otherwise it returns the three loaded objects. -/
def load_model {α β γ : Type} (r1 : Except LoadFailure α) (r2 : Except LoadFailure β)
    (r3 : Except LoadFailure γ) : Option α × Option β × Option γ :=
  match r1 with
  | .error _ => (none, none, none)
  | .ok m =>
    match r2 with
    | .error _ => (none, none, none)
    | .ok g =>
      match r3 with
      | .error _ => (none, none, none)
      | .ok j => (some m, some g, some j)

/-- The guard of the prediction page (if model is None or df.empty: show an
error, else render the form): a prediction is attempted only when the model
loaded and the data is non-empty. -/
def predictionAvailable {α : Type} (model : Option α) (dfEmpty : Bool) : Bool :=
  !(model.isNone || dfEmpty)

/-- Python str.zfill(w) for a digit string: left-pad with zeros to width w. -/
def zfill (w : Nat) (s : String) : String :=
  if s.length < w then String.mk (List.replicate (w - s.length) '0') ++ s else s

/-- The synthetic student id column entry: the f-string
2023 followed by str(i).zfill(6). -/
def studentId (i : Nat) : String :=
  "2023" ++ zfill 6 (toString i)

/-- The random draws the synthetic-data branch of load_data makes
(np.random.choice / np.random.uniform), abstracted as functions of the row
index. -/
structure SynthDraws where
  major : Nat → String
  gender : Nat → String
  hours : Nat → ℚ
  attend : Nat → ℚ
  midterm : Nat → ℚ
  final : Nat → ℚ
  homework : Nat → ℚ

/-- The simulated DataFrame built when the CSV is missing: the eight fixed
columns, each with 200 entries; the student ids run from 1 to 200. -/
def syntheticData (d : SynthDraws) : Table :=
  [("专业", Col.cat ((List.range 200).map d.major)),
   ("性别", Col.cat ((List.range 200).map d.gender)),
   ("每周学习时长（小时）", Col.num ((List.range 200).map d.hours)),
   ("上课出勤率", Col.num ((List.range 200).map d.attend)),
   ("期中考试分数", Col.num ((List.range 200).map d.midterm)),
   ("期末考试分数", Col.num ((List.range 200).map d.final)),
   ("作业完成率", Col.num ((List.range 200).map d.homework)),
   ("学号", Col.cat ((List.range 200).map (fun i => studentId (i + 1))))]

/-- load_data in app.py: return the CSV when it reads; on FileNotFoundError
return the synthetic 200-row frame; on any other exception return an empty
DataFrame. No exception propagates. -/
def load_data (r : Except LoadFailure Table) (d : SynthDraws) : Table :=
  match r with
  | .ok df => df
  | .error .fileNotFound => syntheticData d
  | .error .otherError => []

/-- A sample family of draws for concrete runs of the synthetic-data
branch. -/
def sampleDraws : SynthDraws :=
  ⟨fun _ => "大数据管理", fun _ => "男", fun _ => 20, fun _ => 1, fun _ => 80,
    fun _ => 80, fun _ => 1⟩

end Dashboard

namespace PenguinPipeline

theorem mem_uniques {x : String} : ∀ {l : List String}, x ∈ uniques l ↔ x ∈ l := by
  intro l
  induction l with
  | nil => simp [uniques]
  | cons a as ih =>
    simp only [uniques, List.mem_cons, List.mem_filter]
    constructor
    · rintro (rfl | ⟨hmem, _⟩)
      · exact Or.inl rfl
      · exact Or.inr (ih.mp hmem)
    · rintro (rfl | hmem)
      · exact Or.inl rfl
      · by_cases hx : x = a
        · exact Or.inl hx
        · exact Or.inr ⟨ih.mpr hmem, by simpa using hx⟩

theorem nodup_uniques : ∀ (l : List String), (uniques l).Nodup := by
  intro l
  induction l with
  | nil => simp [uniques]
  | cons a as ih =>
    simp only [uniques]
    refine List.nodup_cons.mpr ⟨?_, ih.filter _⟩
    intro hmem
    have := List.of_mem_filter hmem
    simp at this

theorem length_codes (l : List String) : (codes l).length = l.length := by
  simp [codes]

theorem length_uniques_eq_card (l : List String) :
    (uniques l).length = l.toFinset.card := by
  have hset : (uniques l).toFinset = l.toFinset := by
    ext x
    simp [List.mem_toFinset, mem_uniques]
  calc (uniques l).length = (uniques l).toFinset.card :=
        (List.toFinset_card_of_nodup (nodup_uniques l)).symm
    _ = l.toFinset.card := by rw [hset]

theorem uniques_pairwise_firstAppearance (l : List String) :
    (uniques l).Pairwise (fun a b => l.indexOf a < l.indexOf b) := by
  induction l with
  | nil => simp [uniques]
  | cons x xs ih =>
    simp only [uniques]
    refine List.pairwise_cons.mpr ⟨?_, ?_⟩
    · intro b hb
      have hbx : b ≠ x := by simpa using List.of_mem_filter hb
      rw [List.indexOf_cons_self, List.indexOf_cons_ne _ (Ne.symm hbx)]
      exact Nat.succ_pos _
    · have hfil := ih.filter (fun y => decide (y ≠ x))
      refine hfil.imp_of_mem ?_
      intro a b ha hb hab
      have hax : a ≠ x := by simpa using List.of_mem_filter ha
      have hbx : b ≠ x := by simpa using List.of_mem_filter hb
      rw [List.indexOf_cons_ne _ (Ne.symm hax), List.indexOf_cons_ne _ (Ne.symm hbx)]
      exact Nat.succ_lt_succ hab

theorem codes_lt_length_uniques {l : List String} {c : Nat} (hc : c ∈ codes l) :
    c < (uniques l).length := by
  simp only [codes, List.mem_map] at hc
  obtain ⟨x, hx, rfl⟩ := hc
  exact List.indexOf_lt_length.mpr (mem_uniques.mpr hx)

theorem uniques_get_code {l : List String} (i : Nat) (h : i < l.length)
    (hb : (uniques l).indexOf (l.get ⟨i, h⟩) < (uniques l).length) :
    (uniques l).get ⟨(uniques l).indexOf (l.get ⟨i, h⟩), hb⟩ = l.get ⟨i, h⟩ :=
  List.indexOf_get hb

theorem insertSorted_perm (s : String) (l : List String) :
    (insertSorted s l).Perm (s :: l) := by
  induction l with
  | nil => simp [insertSorted]
  | cons x xs ih =>
    unfold insertSorted
    by_cases h : s ≤ x
    · simp [h]
    · simp only [h, if_false]
      exact (ih.cons x).trans (List.Perm.swap s x xs)

theorem sortStrings_perm (l : List String) : (sortStrings l).Perm l := by
  induction l with
  | nil => simp [sortStrings]
  | cons x xs ih =>
    have : sortStrings (x :: xs) = insertSorted x (sortStrings xs) := rfl
    rw [this]
    exact (insertSorted_perm x (sortStrings xs)).trans (ih.cons x)

theorem sortedUniques_perm_uniques (l : List String) :
    (sortedUniques l).Perm (uniques l) :=
  sortStrings_perm (uniques l)

theorem mem_sortedUniques {x : String} {l : List String} :
    x ∈ sortedUniques l ↔ x ∈ l :=
  Iff.trans ((sortedUniques_perm_uniques l).mem_iff) mem_uniques

theorem nodup_sortedUniques (l : List String) : (sortedUniques l).Nodup :=
  ((sortedUniques_perm_uniques l).nodup_iff).mpr (nodup_uniques l)

theorem length_sortedUniques (l : List String) :
    (sortedUniques l).length = l.toFinset.card := by
  rw [(sortedUniques_perm_uniques l).length_eq, length_uniques_eq_card]

theorem length_featuresMatrix (df : List Record) :
    (featuresMatrix df).length = (survivors df).length := by
  simp [featuresMatrix]

theorem length_outputLabels (df : List Record) :
    (outputLabels df).length = (survivors df).length := by
  simp [outputLabels]

theorem length_labelCodes (df : List Record) :
    (labelCodes df).length = (outputLabels df).length :=
  length_codes (outputLabels df)

theorem featuresMatrix_length_eq_labelCodes_length (df : List Record) :
    (featuresMatrix df).length = (labelCodes df).length := by
  rw [length_featuresMatrix, length_labelCodes, length_outputLabels]

theorem splitSizes_configError {n : Nat} {p : ℚ} (hp : p ≤ 0 ∨ 1 ≤ p) :
    splitSizes n p = .error .configError := by
  unfold splitSizes
  rw [if_pos hp]

theorem nTrainOf_zero (p : ℚ) : nTrainOf 0 p = 0 := by
  unfold nTrainOf
  simp

theorem nTestOf_zero (p : ℚ) : nTestOf 0 p = 0 := by
  unfold nTestOf
  simp

theorem splitSizes_zero {p : ℚ} (hp0 : 0 < p) (hp1 : p < 1) :
    splitSizes 0 p = .error .dataError := by
  unfold splitSizes
  rw [if_neg (by push_neg; exact ⟨hp0, hp1⟩), nTrainOf_zero, nTestOf_zero]
  simp

theorem train_test_split_configError (df : List Record) (p : ℚ)
    (shuffle : List (List ℚ × Nat) → List (List ℚ × Nat)) (hp : p ≤ 0 ∨ 1 ≤ p) :
    train_test_split (featuresMatrix df) (labelCodes df) p shuffle =
      .error .configError := by
  unfold train_test_split
  rw [if_neg (by simp [featuresMatrix_length_eq_labelCodes_length df]),
    splitSizes_configError hp]

theorem train_test_split_empty (df : List Record) (p : ℚ)
    (shuffle : List (List ℚ × Nat) → List (List ℚ × Nat))
    (hp0 : 0 < p) (hp1 : p < 1) (hdf : survivors df = []) :
    train_test_split (featuresMatrix df) (labelCodes df) p shuffle =
      .error .dataError := by
  have hX : (featuresMatrix df).length = 0 := by rw [length_featuresMatrix, hdf]; rfl
  unfold train_test_split
  rw [if_neg (by simp [featuresMatrix_length_eq_labelCodes_length df]), hX,
    splitSizes_zero hp0 hp1]

theorem splitSizes_ok {n : Nat} {p : ℚ} {a b : Nat}
    (h : splitSizes n p = .ok (a, b)) :
    (0 < p ∧ p < 1) ∧ a = nTrainOf n p ∧ b = nTestOf n p ∧ a ≠ 0 := by
  unfold splitSizes at h
  by_cases h1 : p ≤ 0 ∨ 1 ≤ p
  · rw [if_pos h1] at h
    exact Except.noConfusion h
  · rw [if_neg h1] at h
    by_cases h2 : n < nTrainOf n p + nTestOf n p
    · rw [if_pos h2] at h
      exact Except.noConfusion h
    · rw [if_neg h2] at h
      by_cases h3 : nTrainOf n p = 0
      · rw [if_pos h3] at h
        exact Except.noConfusion h
      · rw [if_neg h3] at h
        injection h with hpair
        injection hpair with ha hb
        push_neg at h1
        exact ⟨⟨h1.1, h1.2⟩, ha.symm, hb.symm, fun hz => h3 (ha.trans hz)⟩

theorem nTrainOf_le {n : Nat} {p : ℚ} (hp1 : p ≤ 1) :
    nTrainOf n p ≤ n := by
  unfold nTrainOf
  have hle : p * (n : ℚ) ≤ (n : ℚ) := by
    calc p * (n : ℚ) ≤ 1 * (n : ℚ) :=
          mul_le_mul_of_nonneg_right hp1 (Nat.cast_nonneg n)
      _ = (n : ℚ) := one_mul _
  have : ⌊p * (n : ℚ)⌋ ≤ (n : ℤ) := by
    calc ⌊p * (n : ℚ)⌋ ≤ ⌊(n : ℚ)⌋ := Int.floor_le_floor hle
      _ = (n : ℤ) := Int.floor_natCast n
  exact Int.toNat_le.mpr this

theorem nTrainOf_cast {n : Nat} {p : ℚ} (hp0 : 0 ≤ p) :
    ((nTrainOf n p : ℕ) : ℚ) = ((⌊p * (n : ℚ)⌋ : ℤ) : ℚ) := by
  have hnn : (0 : ℚ) ≤ p * (n : ℚ) := mul_nonneg hp0 (Nat.cast_nonneg n)
  have hfl : (0 : ℤ) ≤ ⌊p * (n : ℚ)⌋ := Int.floor_nonneg.mpr hnn
  unfold nTrainOf
  exact_mod_cast congrArg (fun z : ℤ => (z : ℚ)) (Int.toNat_of_nonneg hfl)

theorem runPipeline_of_split_error {μ : Type} (df : List Record) (p : ℚ)
    (shuffle : List (List ℚ × Nat) → List (List ℚ × Nat))
    (fit : List (List ℚ) → List Nat → μ) (predictFn : μ → List (List ℚ) → List Nat)
    (w1 w2 : WriteOutcome) (fs0 : FS μ) (e : Err)
    (hs : train_test_split (featuresMatrix df) (labelCodes df) p shuffle = .error e) :
    runPipeline df p shuffle fit predictFn w1 w2 fs0 = (fs0, .error e) := by
  unfold runPipeline
  rw [hs]

theorem train_test_split_ok {X : List (List ℚ)} {Y : List Nat} {p : ℚ}
    {shuffle : List (List ℚ × Nat) → List (List ℚ × Nat)}
    {xtr xte : List (List ℚ)} {ytr yte : List Nat}
    (hs : ∀ l, (shuffle l).length = l.length)
    (hXY : X.length = Y.length)
    (h : train_test_split X Y p shuffle = .ok (xtr, xte, ytr, yte)) :
    (0 < p ∧ p < 1) ∧
    xtr.length = nTrainOf X.length p ∧
    xte.length = X.length - nTrainOf X.length p ∧
    ytr.length = xtr.length ∧ yte.length = xte.length := by
  unfold train_test_split at h
  rw [if_neg (by simp [hXY])] at h
  obtain ⟨hsizes, ok⟩ : ∃ q, splitSizes X.length p = .ok q := by
    rcases hq : splitSizes X.length p with e | q
    · rw [hq] at h
      exact Except.noConfusion h
    · exact ⟨q, rfl⟩
  obtain ⟨a, b⟩ := hsizes
  rw [ok] at h
  obtain ⟨hp, ha, hb, hane⟩ := splitSizes_ok ok
  have hpairs : (shuffle (X.zip Y)).length = X.length := by
    rw [hs, List.length_zip, hXY, Nat.min_self, ← hXY]
  have haleX : a ≤ X.length := ha ▸ nTrainOf_le hp.2.le
  injection h with hpair
  injection hpair with h1 hpair
  injection hpair with h2 hpair
  injection hpair with h3 h4
  refine ⟨hp, ?_, ?_, ?_, ?_⟩
  · rw [← h1, List.length_map, List.length_take, hpairs, Nat.min_eq_left haleX, ha]
  · rw [← h2, List.length_map, List.length_drop, hpairs, ha]
  · rw [← h3, ← h1, List.length_map, List.length_map]
  · rw [← h4, ← h2, List.length_map, List.length_map]

/-- C1. The claim states that a pipeline run is all-or-nothing: either both
artifacts are written and success is reported, or the run fails before
producing any artifact. This is false on the code: the two pickle.dump blocks
run in sequence, so a failure while opening output_uniques.pkl after
rfc_model.pkl has been fully written leaves exactly one artifact on disk.
The run interruptedRun is such a run: it ends in an IOError, yet rfc_model.pkl
is written while output_uniques.pkl is absent. -/
theorem claim_C1_counterexample :
    interruptedRun.1.rfcModelFile = .written () ∧
      interruptedRun.1.outputUniquesFile = .absent ∧
      interruptedRun.2 = .error .ioError := by
  with_unfolding_all decide

/-- C1 (amended). Success is reported iff the split step succeeded and both
writes succeeded, and then both artifacts are fully written; a failure before
the persistence step leaves the filesystem untouched; and a failure of the
first write leaves the second file untouched. (A failed run may thus leave
the model artifact complete while the lookup artifact is missing, as
claim_C1_counterexample shows.) -/
theorem claim_C1_amended {μ : Type} (df : List Record) (p : ℚ)
    (shuffle : List (List ℚ × Nat) → List (List ℚ × Nat))
    (fit : List (List ℚ) → List Nat → μ) (predictFn : μ → List (List ℚ) → List Nat)
    (w1 w2 : WriteOutcome) (fs0 : FS μ) :
    ((∃ s, (runPipeline df p shuffle fit predictFn w1 w2 fs0).2 = .ok s) ↔
      (∃ q, train_test_split (featuresMatrix df) (labelCodes df) p shuffle = .ok q) ∧
        w1 = .success ∧ w2 = .success) ∧
    ((∃ s, (runPipeline df p shuffle fit predictFn w1 w2 fs0).2 = .ok s) →
      (∃ m, (runPipeline df p shuffle fit predictFn w1 w2 fs0).1.rfcModelFile = .written m) ∧
        (runPipeline df p shuffle fit predictFn w1 w2 fs0).1.outputUniquesFile =
          .written (outputUniques df)) ∧
    ((∃ e, train_test_split (featuresMatrix df) (labelCodes df) p shuffle = .error e) →
      (runPipeline df p shuffle fit predictFn w1 w2 fs0).1 = fs0) ∧
    (w1 ≠ .success →
      (runPipeline df p shuffle fit predictFn w1 w2 fs0).1.outputUniquesFile =
        fs0.outputUniquesFile) := by
  rcases hsplit : train_test_split (featuresMatrix df) (labelCodes df) p shuffle with
    e | ⟨xtr, xte, ytr, yte⟩
  · rw [runPipeline_of_split_error df p shuffle fit predictFn w1 w2 fs0 e hsplit]
    simp [hsplit]
  · cases w1 <;> cases w2 <;>
      rw [show runPipeline df p shuffle fit predictFn _ _ fs0 =
        _ from by unfold runPipeline; rw [hsplit]] <;>
      simp [hsplit, writeFile]

/-- C2. For every split fraction p outside the open interval (0,1), and any
dataset, classifier, shuffle and write outcomes, the run fails with
ConfigError and the filesystem is returned untouched: the split validation
happens before the model is fitted and before either artifact is written.
The error class is modelled from the spec taxonomy (sklearn raises a
ValueError for an invalid train_size). -/
theorem claim_C2 {μ : Type} (df : List Record) (p : ℚ)
    (shuffle : List (List ℚ × Nat) → List (List ℚ × Nat))
    (fit : List (List ℚ) → List Nat → μ) (predictFn : μ → List (List ℚ) → List Nat)
    (w1 w2 : WriteOutcome) (fs0 : FS μ) (hp : p ≤ 0 ∨ 1 ≤ p) :
    runPipeline df p shuffle fit predictFn w1 w2 fs0 = (fs0, .error .configError) :=
  runPipeline_of_split_error df p shuffle fit predictFn w1 w2 fs0 .configError
    (train_test_split_configError df p shuffle hp)

/-- C2 witness: the failure scenario of the spec, p = 1.5, on the sample
dataset: the run reports ConfigError and the (empty) filesystem is
unchanged. -/
theorem claim_C2_witness :
    ((3 : ℚ) / 2 ≤ 0 ∨ 1 ≤ (3 : ℚ) / 2) ∧
      runPipeline sampleDf ((3 : ℚ) / 2) id (fun _ _ => ())
          (fun _ xs => xs.map (fun _ => 0)) .success .success ⟨.absent, .absent⟩ =
        (⟨.absent, .absent⟩, .error .configError) :=
  ⟨Or.inr (by with_unfolding_all decide),
    claim_C2 sampleDf ((3 : ℚ) / 2) id (fun _ _ => ()) (fun _ xs => xs.map (fun _ => 0))
      .success .success ⟨.absent, .absent⟩ (Or.inr (by with_unfolding_all decide))⟩

/-- C3. For every input table that is empty after dropping rows with missing
values, and any valid split fraction (the script uses p = 0.8), the run
fails with DataError: the validation inside the split call rejects the empty
array before any partition is formed, the classifier (an arbitrary
parameter here) is never fitted, and the filesystem is returned untouched. -/
theorem claim_C3 {μ : Type} (df : List Record) (p : ℚ)
    (shuffle : List (List ℚ × Nat) → List (List ℚ × Nat))
    (fit : List (List ℚ) → List Nat → μ) (predictFn : μ → List (List ℚ) → List Nat)
    (w1 w2 : WriteOutcome) (fs0 : FS μ)
    (hp0 : 0 < p) (hp1 : p < 1) (hdf : survivors df = []) :
    runPipeline df p shuffle fit predictFn w1 w2 fs0 = (fs0, .error .dataError) :=
  runPipeline_of_split_error df p shuffle fit predictFn w1 w2 fs0 .dataError
    (train_test_split_empty df p shuffle hp0 hp1 hdf)

/-- C3 witness: a one-row table whose single row has a missing species is
empty after dropna; with the script fraction p = 0.8 the run reports
DataError and the (empty) filesystem is unchanged. -/
theorem claim_C3_witness :
    (0 < (4 : ℚ) / 5 ∧ (4 : ℚ) / 5 < 1 ∧ survivors [sampleRecMissing] = []) ∧
      runPipeline [sampleRecMissing] ((4 : ℚ) / 5) id (fun _ _ => ())
          (fun _ xs => xs.map (fun _ => 0)) .success .success ⟨.absent, .absent⟩ =
        (⟨.absent, .absent⟩, .error .dataError) :=
  ⟨⟨by with_unfolding_all decide, by with_unfolding_all decide,
      by with_unfolding_all decide⟩,
    claim_C3 [sampleRecMissing] ((4 : ℚ) / 5) id (fun _ _ => ())
      (fun _ xs => xs.map (fun _ => 0)) .success .success ⟨.absent, .absent⟩
      (by with_unfolding_all decide) (by with_unfolding_all decide)
      (by with_unfolding_all decide)⟩

/-- C1 amended witness: on the sample dataset a fully successful run (both
writes succeed) leaves the model artifact and the label lookup artifact both
written. -/
theorem claim_C1_amended_witness :
    (∃ m, (runPipeline sampleDf ((4 : ℚ) / 5) id (fun _ _ => ())
        (fun _ xs => xs.map (fun _ => 0)) .success .success
        ⟨.absent, .absent⟩).1.rfcModelFile = FileState.written m) ∧
      (runPipeline sampleDf ((4 : ℚ) / 5) id (fun _ _ => ())
        (fun _ xs => xs.map (fun _ => 0)) .success .success
        ⟨.absent, .absent⟩).1.outputUniquesFile = .written (outputUniques sampleDf) :=
  (claim_C1_amended sampleDf ((4 : ℚ) / 5) id (fun _ _ => ())
      (fun _ xs => xs.map (fun _ => 0)) .success .success ⟨.absent, .absent⟩).2.1
    ⟨1, by with_unfolding_all decide⟩

/-- C4. Row alignment of the feature encoding: the feature matrix and the
label-code vector have equal length, and for every index i the i-th feature
row is the encoding of the i-th surviving record while the i-th label code is
the factorize code of the species of that same record. -/
theorem claim_C4 (df : List Record) :
    (featuresMatrix df).length = (labelCodes df).length ∧
    ∀ i (hi : i < (survivors df).length),
      (featuresMatrix df).get ⟨i, by rw [length_featuresMatrix]; exact hi⟩ =
          encodeRow (islandCats df) (sexCats df) ((survivors df).get ⟨i, hi⟩) ∧
        (labelCodes df).get
            ⟨i, by rw [length_labelCodes, length_outputLabels]; exact hi⟩ =
          (outputUniques df).indexOf (((survivors df).get ⟨i, hi⟩).species.getD "") := by
  refine ⟨featuresMatrix_length_eq_labelCodes_length df, fun i hi => ⟨?_, ?_⟩⟩
  · simp [featuresMatrix, List.get_eq_getElem, List.getElem_map]
  · simp [labelCodes, codes, outputLabels, outputUniques, List.get_eq_getElem,
      List.getElem_map]

/-- C4 witness: alignment evaluated at row 0 of the sample dataset. -/
theorem claim_C4_witness :
    0 < (survivors sampleDf).length ∧
      (featuresMatrix sampleDf).get ⟨0, by with_unfolding_all decide⟩ =
        encodeRow (islandCats sampleDf) (sexCats sampleDf)
          ((survivors sampleDf).get ⟨0, by with_unfolding_all decide⟩) :=
  ⟨by with_unfolding_all decide,
    ((claim_C4 sampleDf).2 0 (by with_unfolding_all decide)).1⟩

/-- C5. Round-trip law of the target encoding: for every record of the
dataset, looking the assigned code up in the label lookup array returns the
original species label. -/
theorem claim_C5 (df : List Record) (i : Nat) (hi : i < (outputLabels df).length) :
    (outputUniques df).getD ((labelCodes df).getD i 0) "" =
      (outputLabels df).getD i "" := by
  have hi' : i < (labelCodes df).length := by rw [length_labelCodes]; exact hi
  have hcode : (labelCodes df).getD i 0 =
      (outputUniques df).indexOf ((outputLabels df).getD i "") := by
    rw [List.getD_eq_getElem _ _ hi', List.getD_eq_getElem _ _ hi]
    simp [labelCodes, codes, outputUniques, List.getElem_map]
  rw [hcode]
  have hmem : (outputLabels df).getD i "" ∈ outputUniques df := by
    show _ ∈ uniques (outputLabels df)
    apply mem_uniques.mpr
    rw [List.getD_eq_getElem _ _ hi]
    exact List.getElem_mem hi
  have hlt : (outputUniques df).indexOf ((outputLabels df).getD i "") <
      (outputUniques df).length :=
    List.indexOf_lt_length.mpr hmem
  rw [List.getD_eq_getElem _ _ hlt]
  exact List.getElem_indexOf hlt

/-- C5 witness: the round trip evaluated at record 1 of the sample dataset
(species B, code 1). -/
theorem claim_C5_witness :
    1 < (outputLabels sampleDf).length ∧
      (outputUniques sampleDf).getD ((labelCodes sampleDf).getD 1 0) "" =
        (outputLabels sampleDf).getD 1 "" :=
  ⟨by with_unfolding_all decide, claim_C5 sampleDf 1 (by with_unfolding_all decide)⟩

/-- C6. The label lookup array has exactly as many entries as there are
distinct species observed, every label code is a valid index into it, and its
entries are ordered by first appearance in the target column. -/
theorem claim_C6 (df : List Record) :
    (outputUniques df).length = (outputLabels df).toFinset.card ∧
      (∀ c ∈ labelCodes df, c < (outputUniques df).length) ∧
      (outputUniques df).Pairwise
        (fun a b => (outputLabels df).indexOf a < (outputLabels df).indexOf b) :=
  ⟨length_uniques_eq_card (outputLabels df),
    fun _ hc => codes_lt_length_uniques hc,
    uniques_pairwise_firstAppearance (outputLabels df)⟩

/-- C6 witness: on the sample dataset the lookup array has two entries
(two species) and the code 0 is a valid index. -/
theorem claim_C6_witness :
    (0 ∈ labelCodes sampleDf) ∧ 0 < (outputUniques sampleDf).length :=
  ⟨by with_unfolding_all decide,
    (claim_C6 sampleDf).2.1 0 (by with_unfolding_all decide)⟩

/-- C7. Whenever the split step succeeds (for any length-preserving shuffle
and arrays of equal length), the train and test parts partition the rows,
len(train) + len(test) = n, the label parts have the same sizes as the
feature parts, and len(train) is p times n up to rounding:
len(train) ≤ p·n < len(train) + 1. -/
theorem claim_C7 {X : List (List ℚ)} {Y : List Nat} {p : ℚ}
    {shuffle : List (List ℚ × Nat) → List (List ℚ × Nat)}
    {xtr xte : List (List ℚ)} {ytr yte : List Nat}
    (hs : ∀ l, (shuffle l).length = l.length)
    (hXY : X.length = Y.length)
    (h : train_test_split X Y p shuffle = .ok (xtr, xte, ytr, yte)) :
    xtr.length + xte.length = X.length ∧
      ytr.length + yte.length = Y.length ∧
      (xtr.length : ℚ) ≤ p * (X.length : ℚ) ∧
      p * (X.length : ℚ) < (xtr.length : ℚ) + 1 := by
  obtain ⟨hp, hxtr, hxte, hytr, hyte⟩ := train_test_split_ok hs hXY h
  have hle : nTrainOf X.length p ≤ X.length := nTrainOf_le hp.2.le
  refine ⟨?_, ?_, ?_, ?_⟩
  · rw [hxtr, hxte]
    omega
  · rw [hytr, hyte, hxtr, hxte, ← hXY]
    omega
  · rw [hxtr, nTrainOf_cast hp.1.le]
    exact Int.floor_le _
  · rw [hxtr, nTrainOf_cast hp.1.le]
    exact Int.lt_floor_add_one _

/-- C7 witness: a ten-row split at p = 0.8 gives sizes 8 and 2, which sum
back to 10. -/
theorem claim_C7_witness :
    train_test_split (List.replicate 10 ([] : List ℚ)) (List.replicate 10 (0 : Nat))
        ((4 : ℚ) / 5) id =
      .ok (List.replicate 8 [], List.replicate 2 [], List.replicate 8 0,
        List.replicate 2 0) ∧
    (List.replicate 8 ([] : List ℚ)).length + (List.replicate 2 ([] : List ℚ)).length =
      (List.replicate 10 ([] : List ℚ)).length :=
  ⟨by with_unfolding_all decide,
    (@claim_C7 (List.replicate 10 []) (List.replicate 10 0) ((4 : ℚ) / 5) id
      (List.replicate 8 []) (List.replicate 2 []) (List.replicate 8 0)
      (List.replicate 2 0) (fun _ => rfl) rfl (by with_unfolding_all decide)).1⟩

/-- C8. One-hot encoding: every numeric column passes through to the encoded
table with its values unchanged; every categorical column contributes, for
each of its observed values v, an indicator column named name_v whose rows
are 1 exactly where the original column equals v; the dummy columns of a
column are exactly one per distinct observed value (their name list is the
deduplicated value list, which is nodup, complete, and of size equal to the
number of distinct values); the encoded table contains only numeric columns;
indicator entries are binary; and the encoding is deterministic (equal inputs
give equal encoded tables, names, order and values). -/
theorem claim_C8 (t : Table) :
    (∀ name vs, (name, Col.num vs) ∈ t → (name, Col.num vs) ∈ get_dummies t) ∧
    (∀ name vs v, (name, Col.cat vs) ∈ t → v ∈ vs →
      (name ++ "_" ++ v, Col.num (indicator v vs)) ∈ get_dummies t) ∧
    (∀ name vs, (dummyColumns name vs).map Prod.fst =
        (sortedUniques vs).map (fun v => name ++ "_" ++ v) ∧
      (sortedUniques vs).Nodup ∧ (∀ v, v ∈ sortedUniques vs ↔ v ∈ vs) ∧
      (sortedUniques vs).length = vs.toFinset.card) ∧
    (∀ c ∈ get_dummies t, c.2.isNum = true) ∧
    (∀ v vs x, x ∈ indicator v vs → x = 0 ∨ x = 1) ∧
    (∀ t2, t = t2 → get_dummies t = get_dummies t2) := by
  refine ⟨?_, ?_, ?_, ?_, ?_, ?_⟩
  · intro name vs h
    exact List.mem_append_left _ (List.mem_filter.mpr ⟨h, rfl⟩)
  · intro name vs v ht hv
    refine List.mem_append_right _ ?_
    refine List.mem_flatMap.mpr ⟨(name, Col.cat vs), List.mem_filter.mpr ⟨ht, rfl⟩, ?_⟩
    show _ ∈ dummyColumns name vs
    exact List.mem_map.mpr ⟨v, mem_sortedUniques.mpr hv, rfl⟩
  · intro name vs
    refine ⟨?_, nodup_sortedUniques _, fun v => mem_sortedUniques, length_sortedUniques _⟩
    simp [dummyColumns]
  · intro c hc
    rcases List.mem_append.mp hc with h | h
    · exact (List.mem_filter.mp h).2
    · obtain ⟨⟨n2, c2⟩, _, hin⟩ := List.mem_flatMap.mp h
      rcases c2 with vs2 | vs2
      · simp at hin
      · obtain ⟨v, _, rfl⟩ := List.mem_map.mp hin
        rfl
  · intro v vs x hx
    obtain ⟨y, _, rfl⟩ := List.mem_map.mp hx
    by_cases h : y = v <;> simp [h]
  · intro t2 ht
    rw [ht]

/-- C8 witness: on a two-column table, the numeric column passes through and
the categorical column yields the indicator column for value a with its
evaluated name. -/
theorem claim_C8_witness :
    (("x", Col.num [1, 2]) ∈
        get_dummies [("x", Col.num [1, 2]), ("s", Col.cat ["b", "a", "b"])]) ∧
      (("s" ++ "_" ++ "a", Col.num (indicator "a" ["b", "a", "b"])) ∈
        get_dummies [("x", Col.num [1, 2]), ("s", Col.cat ["b", "a", "b"])]) := by
  have h := claim_C8 [("x", Col.num [1, 2]), ("s", Col.cat ["b", "a", "b"])]
  exact ⟨h.1 "x" [1, 2] (by with_unfolding_all decide),
    h.2.1 "s" ["b", "a", "b"] "a" (by with_unfolding_all decide)
      (by with_unfolding_all decide)⟩

end PenguinPipeline

namespace Dashboard

open PenguinPipeline

/-- C9. The model loader of the dashboard never propagates an exception: for
every outcome of the three joblib.load calls it either returns the loaded
triple (when all three loads succeed) or the triple (None, None, None) (when
any load fails, for the file-missing case and for any other exception
alike); and the prediction page attempts a prediction exactly when the model
is not None and the data is non-empty. -/
theorem claim_C9 {α β γ : Type} (r1 : Except LoadFailure α) (r2 : Except LoadFailure β)
    (r3 : Except LoadFailure γ) :
    ((∃ m g j, load_model r1 r2 r3 = (some m, some g, some j) ∧
        r1 = .ok m ∧ r2 = .ok g ∧ r3 = .ok j) ∨
      load_model r1 r2 r3 = (none, none, none)) ∧
    (∀ (model : Option α) (dfEmpty : Bool),
      predictionAvailable model dfEmpty = true ↔ model ≠ none ∧ dfEmpty = false) := by
  constructor
  · rcases r1 with e | m
    · exact Or.inr rfl
    · rcases r2 with e | g
      · exact Or.inr rfl
      · rcases r3 with e | j
        · exact Or.inr rfl
        · exact Or.inl ⟨m, g, j, rfl, rfl, rfl, rfl⟩
  · intro model dfEmpty
    cases model <;> cases dfEmpty <;> simp [predictionAvailable]

/-- C9 witness: with the two loader outcomes evaluated concretely, a failed
first load yields the all-None triple, and the guard enables prediction for a
loaded model over non-empty data. -/
theorem claim_C9_witness :
    load_model (Except.error .fileNotFound : Except LoadFailure Nat)
        (Except.ok (2 : Nat)) (Except.ok (3 : Nat)) =
      (none, none, none) ∧
    predictionAvailable (some (1 : Nat)) false = true := by
  have h1 := claim_C9 (Except.error .fileNotFound : Except LoadFailure Nat)
    (Except.ok (2 : Nat)) (Except.ok (3 : Nat))
  have h2 := claim_C9 (Except.ok (1 : Nat)) (Except.ok (2 : Nat)) (Except.ok (3 : Nat))
  refine ⟨?_, (h2.2 (some 1) false).mpr ⟨by simp, rfl⟩⟩
  rcases h1.1 with ⟨m, g, j, _, hc, _, _⟩ | hnone
  · exact Except.noConfusion hc
  · exact hnone

/-- C10. The data loader of the dashboard never propagates an exception: when
the CSV is missing it returns the synthetic frame, which has exactly the 8
fixed columns in order (major, gender, weekly study hours, attendance,
midterm score, final score, homework rate, student id), each with exactly 200
rows; on any other load failure it returns an empty frame; and on a
successful read it returns the frame read. -/
theorem claim_C10 (d : SynthDraws) (r : Except LoadFailure Table) :
    (r = .error .fileNotFound →
      (load_data r d).map Prod.fst =
        ["专业", "性别", "每周学习时长（小时）", "上课出勤率", "期中考试分数",
          "期末考试分数", "作业完成率", "学号"] ∧
      ∀ c ∈ load_data r d, c.2.length = 200) ∧
    (r = .error .otherError → load_data r d = []) ∧
    (∀ df : Table, r = .ok df → load_data r d = df) := by
  refine ⟨?_, ?_, ?_⟩
  · rintro rfl
    refine ⟨by simp [load_data, syntheticData], ?_⟩
    intro c hc
    simp only [load_data, syntheticData, List.mem_cons, List.not_mem_nil,
      or_false] at hc
    rcases hc with rfl | rfl | rfl | rfl | rfl | rfl | rfl | rfl <;>
      simp [Col.length]
  · rintro rfl
    rfl
  · rintro df rfl
    rfl

/-- C10 witness: with the sample draws, the missing-file branch yields the 8
fixed column names and the other-failure branch yields the empty frame. -/
theorem claim_C10_witness :
    (load_data (.error .fileNotFound) sampleDraws).map Prod.fst =
      ["专业", "性别", "每周学习时长（小时）", "上课出勤率", "期中考试分数",
        "期末考试分数", "作业完成率", "学号"] ∧
    load_data (.error .otherError) sampleDraws = [] :=
  ⟨((claim_C10 sampleDraws (.error .fileNotFound)).1 rfl).1,
    (claim_C10 sampleDraws (.error .otherError)).2.1 rfl⟩

end Dashboard
